import Mathlib

/-!
Verification development for the adaptive-difficulty state machine and
scoring/penalty engine of the AI live-interview platform
(`interview_manager.py`, `scoring_service.py`, `llm_runner.py`).

Python machine integers are embedded as `Nat`/`Int` (no overflow occurs in
this code's ranges), Python floats in the score blends as `ℚ` with the
decimal literals `0.6`, `0.4`, `0.7`, `0.3` read as exact rationals, and the
fallible collaborator (LLM) calls as explicit outcome values. Strings are
Lean strings; the regex `\b\d{1,3}\b` of `evaluate_answer_quality` is
embedded as an explicit left-to-right scan with ASCII word characters.
-/

namespace Interview

/-- The difficulty levels `"easy" | "medium" | "hard"` of `InterviewManager`. -/
inductive Level where
  | easy
  | medium
  | hard
deriving DecidableEq

/-- The level-tracking fields of `InterviewManager`:
`current_level`, `level_questions_asked`, `consecutive_correct`,
`consecutive_incorrect`, `level_progression`. -/
structure TrackerState where
  current_level : Level
  level_questions_asked : Nat
  consecutive_correct : Nat
  consecutive_incorrect : Nat
  level_progression : List Level
deriving DecidableEq

/-- Tracker fields as initialized by `InterviewManager.__init__`. -/
def initialTracker : TrackerState :=
  { current_level := .easy
    level_questions_asked := 0
    consecutive_correct := 0
    consecutive_incorrect := 0
    level_progression := [.easy] }

/-- `InterviewManager.should_promote_level`. -/
def should_promote_level (s : TrackerState) : Bool :=
  if s.current_level = .hard then false
  else decide (2 ≤ s.consecutive_correct)

/-- `InterviewManager.should_demote_level`. -/
def should_demote_level (s : TrackerState) : Bool :=
  if s.current_level = .easy then false
  else decide (2 ≤ s.consecutive_incorrect)

/-- `InterviewManager._change_level`: sets the level, appends it to
`level_progression`, resets `level_questions_asked`, and deliberately does
NOT touch the consecutive counters. -/
def change_level (s : TrackerState) (new_level : Level) : TrackerState :=
  { s with
    current_level := new_level
    level_progression := s.level_progression ++ [new_level]
    level_questions_asked := 0 }

/-- `InterviewManager.determine_next_level`: updates the streak counters from
`technical_score >= 60`, bumps `level_questions_asked`, then promotes
(`easy → medium`, else `hard`) if `should_promote_level`, otherwise demotes
(`medium → easy`, else `medium`) if `should_demote_level`. -/
def determine_next_level (s : TrackerState) (technical_score : Int) : TrackerState :=
  let s :=
    if 60 ≤ technical_score then
      { s with consecutive_correct := s.consecutive_correct + 1, consecutive_incorrect := 0 }
    else
      { s with consecutive_incorrect := s.consecutive_incorrect + 1, consecutive_correct := 0 }
  let s := { s with level_questions_asked := s.level_questions_asked + 1 }
  if should_promote_level s then
    change_level s (if s.current_level = .easy then Level.medium else Level.hard)
  else if should_demote_level s then
    change_level s (if s.current_level = .medium then Level.easy else Level.medium)
  else s

/-- Folding a whole sequence of technical scores through
`determine_next_level`, starting from the fresh tracker. -/
def run_scores (scores : List Int) : TrackerState :=
  scores.foldl determine_next_level initialTracker

/-- Spec-side description of one promotion step: `easy → medium`, `medium → hard`. -/
def promoteStep : Level → Level
  | .easy => .medium
  | .medium => .hard
  | .hard => .hard

/-- Spec-side description of one demotion step: `medium → easy`, `hard → medium`. -/
def demoteStep : Level → Level
  | .easy => .easy
  | .medium => .easy
  | .hard => .medium

/-- Position of a level in the order `easy < medium < hard`. -/
def levelIdx : Level → Nat
  | .easy => 0
  | .medium => 1
  | .hard => 2

/-- The violation counters read by the proctoring-penalty calculators
(`tab_switch_count`, `multiple_faces`, `face_coverings`, `eye_coverings`,
`no_face_count`, `total_alerts`), all non-negative counts. -/
structure ProctoringStats where
  tab_switch_count : Nat
  multiple_faces : Nat
  face_coverings : Nat
  eye_coverings : Nat
  no_face_count : Nat
  total_alerts : Nat
deriving DecidableEq

/-- `InterviewManager._calculate_proctoring_penalty` (the numeric part; the
identical arithmetic also appears as
`ScoringService.calculate_proctoring_penalty`): tab-switch penalty capped at
20, a face subtotal (uncapped 15 per multiple-face event, covered face and
covered eyes capped at 25 each, missing face capped at 15) capped at 50, an
alert penalty capped at 10, and the grand total capped at 70. -/
def calculate_proctoring_penalty (p : ProctoringStats) : Nat :=
  let tab_penalty := if 0 < p.tab_switch_count then min (p.tab_switch_count * 2) 20 else 0
  let multiple_penalty := if 0 < p.multiple_faces then 15 * p.multiple_faces else 0
  let face_cover_penalty := if 0 < p.face_coverings then min (p.face_coverings * 5) 25 else 0
  let eye_cover_penalty := if 0 < p.eye_coverings then min (p.eye_coverings * 5) 25 else 0
  let no_face_penalty := if 0 < p.no_face_count then min (p.no_face_count * 2) 15 else 0
  let face_penalty := multiple_penalty + face_cover_penalty + eye_cover_penalty + no_face_penalty
  let alert_penalty := if 0 < p.total_alerts then min (p.total_alerts * 1) 10 else 0
  min (tab_penalty + min face_penalty 50 + alert_penalty) 70

/-- A word character of the (ASCII fragment of the) `\w` class used by the
`\b` boundaries of the regex `\b\d{1,3}\b` in `evaluate_answer_quality`. -/
def isWordChar (c : Char) : Bool :=
  c.isAlphanum || c = '_'

/-- Python `str.strip()`: drop whitespace from both ends. -/
def stripChars (cs : List Char) : List Char :=
  ((cs.dropWhile Char.isWhitespace).reverse.dropWhile Char.isWhitespace).reverse

/-- Digits-to-number conversion, `int(...)` on the matched token. -/
def charsToNat (cs : List Char) : Nat :=
  cs.foldl (fun acc c => acc * 10 + (c.toNat - 48)) 0

/-- Left-to-right scan for the first match of `\b\d{1,3}\b`
(`re.findall(r"\b\d{1,3}\b", response)[0]`): a maximal digit run of length
1–3 preceded and followed by a non-word character or a string edge. `prev`
is the character just before the scan position. -/
def findFirstNumberAux : Option Char → List Char → Option Nat
  | _, [] => none
  | prev, c :: rest =>
    let boundary : Bool :=
      match prev with
      | none => true
      | some q => !isWordChar q
    let run := (c :: rest).takeWhile Char.isDigit
    let after_ok : Bool :=
      match (c :: rest).drop run.length with
      | [] => true
      | d :: _ => !isWordChar d
    if boundary && c.isDigit && decide (run.length ≤ 3) && after_ok then
      some (charsToNat run)
    else
      findFirstNumberAux (some c) rest

/-- First `\b\d{1,3}\b` token of a string, if any. -/
def findFirstNumber (s : String) : Option Nat :=
  findFirstNumberAux none s.toList

/-- `len(answer.split())`: number of maximal whitespace-free words. The flag
records whether the scan is currently inside a word. -/
def wordCountAux : Bool → List Char → Nat
  | _, [] => 0
  | in_word, c :: rest =>
    if c.isWhitespace then wordCountAux false rest
    else (if in_word then 0 else 1) + wordCountAux true rest

/-- `len(answer.split())`. -/
def wordCount (s : String) : Nat :=
  wordCountAux false s.toList

/-- The fixed keyword pool of the second-tier heuristic of
`evaluate_answer_quality`. -/
def scoringKeywords : List String :=
  ["because", "example", "method", "technique", "approach"]

/-- Python's `needle in haystack` on strings: contiguous-substring test. -/
def isSubstring (needle : List Char) : List Char → Bool
  | [] => needle.isEmpty
  | c :: rest => needle.isPrefixOf (c :: rest) || isSubstring needle rest

/-- `any(keyword in answer.lower() for keyword in [...])`. -/
def containsKeyword (answer : String) : Bool :=
  scoringKeywords.any fun kw =>
    isSubstring kw.toList (answer.toList.map Char.toLower)

/-- Outcome of the `self.llm.ask(evaluation_prompt)` collaborator call:
either a returned response string or a raised exception. -/
inductive LLMResult where
  | ok (response : String)
  | err
deriving DecidableEq

/-- `InterviewManager.evaluate_answer_quality`, with the collaborator call
abstracted to its outcome: tier 1 parses the first 1–3 digit token of the
stripped response and clamps it to `[0, 100]`; tier 2 (no token) scores 65
for a detailed keyword-bearing answer (> 20 words) else 45; tier 3
(collaborator raised) scores 55 for answers longer than 50 characters
else 40. -/
def evaluate_answer_quality (llm : LLMResult) (answer : String) : Nat :=
  match llm with
  | .ok response =>
    match findFirstNumberAux none (stripChars response.toList) with
    | some score => max 0 (min 100 score)
    | none =>
      if 20 < wordCount answer ∧ containsKeyword answer = true then 65 else 45
  | .err =>
    if 50 < answer.length then 55 else 40

/-- `round(x, 1)` of the reporting layer, embedded as exact rational
rounding to one decimal place. -/
def round1 (x : ℚ) : ℚ :=
  (round (10 * x) : ℤ) / 10

/-- The `level_weights = {"easy": 30, "medium": 70, "hard": 100}` table of
`InterviewManager.calculate_final_evaluation`. -/
def level_weights_im : Level → ℚ
  | .easy => 30
  | .medium => 70
  | .hard => 100

/-- The numeric fields of the dict returned by
`InterviewManager.calculate_final_evaluation`. -/
structure FinalEvaluation where
  final_level : Level
  level_score : ℚ
  technical_score : ℚ
  base_score : ℚ
  overall_score : ℚ
  proctoring_penalty : Option ℚ
deriving DecidableEq

/-- `InterviewManager.calculate_final_evaluation`: level score from the
30/70/100 table, technical average of the recorded scores (default 50 when
none), `base = level·0.6 + technical·0.4`, and, when proctoring stats are
supplied, `overall = max(0, base - penalty)`; reported values rounded to one
decimal place. -/
def calculate_final_evaluation_im (current_level : Level) (technical_scores : List ℚ)
    (proctoring_stats : Option ProctoringStats) : FinalEvaluation :=
  let level_score : ℚ := level_weights_im current_level
  let technical_score : ℚ :=
    if technical_scores = [] then 50
    else technical_scores.sum / technical_scores.length
  let base_score : ℚ := level_score * (6 / 10) + technical_score * (4 / 10)
  match proctoring_stats with
  | none =>
    { final_level := current_level
      level_score := level_score
      technical_score := round1 technical_score
      base_score := round1 base_score
      overall_score := round1 base_score
      proctoring_penalty := none }
  | some ps =>
    let pen : ℚ := calculate_proctoring_penalty ps
    let final_score : ℚ := max 0 (base_score - pen)
    { final_level := current_level
      level_score := level_score
      technical_score := round1 technical_score
      base_score := round1 base_score
      overall_score := round1 final_score
      proctoring_penalty := some (round1 pen) }

/-- The per-session state that feeds the final evaluation: the level tracker
plus the append-only `technical_scores` list of `session_data`. -/
structure SessionState where
  tracker : TrackerState
  technical_scores : List Nat
deriving DecidableEq

/-- Session state at interview start. -/
def initialSession : SessionState :=
  { tracker := initialTracker, technical_scores := [] }

/-- The state effect of `InterviewManager.process_answer` on one turn:
score the answer via `evaluate_answer_quality`, append the score, and run
`determine_next_level` on it. -/
def process_answer (s : SessionState) (llm : LLMResult) (answer : String) : SessionState :=
  let technical_score := evaluate_answer_quality llm answer
  { tracker := determine_next_level s.tracker (technical_score : Int)
    technical_scores := s.technical_scores ++ [technical_score] }

/-- Running a whole interview: one `(collaborator outcome, answer)` pair per
turn, folded through `process_answer` from the fresh session. -/
def run_session (turns : List (LLMResult × String)) : SessionState :=
  turns.foldl (fun s t => process_answer s t.1 t.2) initialSession

/-- The numeric fields of the dict returned by
`ScoringService.calculate_final_evaluation`. `penalty_details` is `none` for
the empty-ledger early return (the `{}` dict), otherwise carries the rounded
base score and, when proctoring stats were supplied, the rounded penalty. -/
structure SSFinalEvaluation where
  overall_score : ℚ
  technical_avg : ℚ
  final_level : String
  total_questions : Nat
  penalty_details : Option (ℚ × Option ℚ)
deriving DecidableEq

/-- The `level_weights = {"easy": 0.3, "medium": 0.6, "hard": 1.0}` lookup of
`ScoringService.calculate_final_evaluation`, with the `.get` default `0.3`
for unknown level strings. -/
def level_weight_ss (final_level : String) : ℚ :=
  if final_level = "easy" then 3 / 10
  else if final_level = "medium" then 6 / 10
  else if final_level = "hard" then 1
  else 3 / 10

/-- `ScoringService.calculate_final_evaluation`: an empty question ledger
short-circuits to all-zero output with empty penalty details; otherwise
`base = technicalAvg·0.7 + levelWeight·100·0.3` and, when proctoring stats
are supplied, `overall = max(0, base - penalty)`, rounded to one decimal. -/
def calculate_final_evaluation_ss (final_level : String) (technical_scores : List ℚ)
    (proctoring_stats : Option ProctoringStats) : SSFinalEvaluation :=
  if technical_scores = [] then
    { overall_score := 0
      technical_avg := 0
      final_level := final_level
      total_questions := 0
      penalty_details := none }
  else
    let level_weight : ℚ := level_weight_ss final_level
    let technical_avg : ℚ := technical_scores.sum / technical_scores.length
    let base_score : ℚ := technical_avg * (7 / 10) + level_weight * 100 * (3 / 10)
    match proctoring_stats with
    | none =>
      { overall_score := round1 base_score
        technical_avg := round1 technical_avg
        final_level := final_level
        total_questions := technical_scores.length
        penalty_details := some (round1 base_score, none) }
    | some ps =>
      let pen : ℚ := calculate_proctoring_penalty ps
      let final_score : ℚ := max 0 (base_score - pen)
      { overall_score := round1 final_score
        technical_avg := round1 technical_avg
        final_level := final_level
        total_questions := technical_scores.length
        penalty_details := some (round1 base_score, some (round1 pen)) }

/-- Outcome of one `self.model.generate_content(prompt)` attempt inside
`LLMRunner.generate_text`: a response whose `.text` attribute is `text`
(`none` when absent), or a raised exception. -/
inductive AttemptOutcome where
  | response (text : Option String)
  | raised
deriving DecidableEq

/-- The fixed fallback string of `LLMRunner.generate_text`. -/
def fallbackReply : String := "Please continue with your answer."

/-- The retry loop of `LLMRunner.generate_text`, starting at attempt index
`attempt`: a truthy `.text` returns the stripped text, an empty or missing
`.text` returns the fallback, an exception retries until the last attempt,
which returns the fallback. Falling out of the loop (possible only when
`max_retries = 0`) is Python's implicit `return None`, embedded as `none`. -/
def generate_text_go (attempts : Nat → AttemptOutcome) (max_retries : Nat)
    (attempt : Nat) : Option String :=
  if _h : attempt < max_retries then
    match attempts attempt with
    | .response (some t) => if t ≠ "" then some t.trim else some fallbackReply
    | .response none => some fallbackReply
    | .raised =>
      if attempt < max_retries - 1 then
        generate_text_go attempts max_retries (attempt + 1)
      else
        some fallbackReply
  else
    none
termination_by max_retries - attempt
decreasing_by omega

/-- `LLMRunner.generate_text(prompt, max_retries)` with the per-attempt
collaborator behaviour abstracted as `attempts`. -/
def generate_text (attempts : Nat → AttemptOutcome) (max_retries : Nat) : Option String :=
  generate_text_go attempts max_retries 0

/-- The fixed per-level fallback question pools of
`InterviewManager._generate_fallback_question`. -/
def fallback_questions (job_role : String) : Level → List String
  | .easy =>
    ["Could you tell me more about your experience with " ++ job_role.toLower ++ "?",
     "What interests you most about being a " ++ job_role ++ "?",
     "Can you describe a basic project related to " ++ job_role.toLower ++
       " that you\x27ve worked on?"]
  | .medium =>
    ["How would you approach a typical challenge in " ++ job_role.toLower ++ "?",
     "What are the key skills needed for a " ++ job_role ++ " role?",
     "Can you explain a technical concept relevant to " ++ job_role.toLower ++ "?"]
  | .hard =>
    ["How would you handle a complex situation in " ++ job_role.toLower ++ "?",
     "What advanced techniques would you use in " ++ job_role.toLower ++ "?",
     "Can you discuss a strategic approach to " ++ job_role.toLower ++ " problems?"]

/-- `InterviewManager._generate_fallback_question`, with `random.choice`
abstracted as a choice index taken modulo the pool size. -/
def generate_fallback_question (job_role : String) (current_level : Level)
    (choice : Nat) : String :=
  let questions := fallback_questions job_role current_level
  questions.getD (choice % questions.length) fallbackReply

/-! ### Theorems -/

/-- C1: one call of `determine_next_level(s)` first updates the streak
counters (`s >= 60` increments `consecutive_correct` and zeroes
`consecutive_incorrect`, else the mirror image), then promotes one adjacent
step iff the level is not `hard` and the updated correct streak is ≥ 2,
otherwise demotes one adjacent step iff the level is not `easy` and the
updated incorrect streak is ≥ 2; the resulting level is at most one adjacent
step away from the old one. -/
theorem C1_determine_next_level_transition (s : TrackerState) (score : Int) :
    let cc := if 60 ≤ score then s.consecutive_correct + 1 else 0
    let ci := if 60 ≤ score then 0 else s.consecutive_incorrect + 1
    let t := determine_next_level s score
    t.consecutive_correct = cc ∧
    t.consecutive_incorrect = ci ∧
    t.current_level =
      (if s.current_level ≠ .hard ∧ 2 ≤ cc then promoteStep s.current_level
       else if s.current_level ≠ .easy ∧ 2 ≤ ci then demoteStep s.current_level
       else s.current_level) ∧
    (levelIdx t.current_level : Int) - levelIdx s.current_level ≤ 1 ∧
    (levelIdx s.current_level : Int) - levelIdx t.current_level ≤ 1 := by
  simp only [determine_next_level, should_promote_level, should_demote_level, change_level]
  cases s.current_level <;>
    split_ifs <;>
      simp_all [promoteStep, demoteStep, levelIdx]

/-- One call of `determine_next_level` always zeroes one of the two streak
counters, so their minimum is `0` afterwards. -/
theorem min_counters_step (s : TrackerState) (score : Int) :
    min (determine_next_level s score).consecutive_correct
      (determine_next_level s score).consecutive_incorrect = 0 := by
  simp only [determine_next_level, change_level]
  split_ifs <;> simp

theorem min_counters_foldl (scores : List Int) (s : TrackerState)
    (h : min s.consecutive_correct s.consecutive_incorrect = 0) :
    min (scores.foldl determine_next_level s).consecutive_correct
      (scores.foldl determine_next_level s).consecutive_incorrect = 0 := by
  induction scores generalizing s with
  | nil => exact h
  | cons a rest ih =>
    exact ih (determine_next_level s a) (min_counters_step s a)

/-- C2: starting from the initial tracker (`easy`, both counters 0), after any
sequence of `determine_next_level` calls the two streak counters satisfy
`min(consecutive_correct, consecutive_incorrect) = 0`: at most one of them is
nonzero in every reachable state, including immediately after a level change. -/
theorem C2_counters_mutually_exclusive (scores : List Int) :
    min (run_scores scores).consecutive_correct
      (run_scores scores).consecutive_incorrect = 0 :=
  min_counters_foldl scores initialTracker rfl

/-- C7: `_change_level` leaves both streak counters unchanged and appends the
new level to `level_progression`; the progression starts as `[easy]`; a call
of `determine_next_level` appends to the progression exactly when it actually
changes the level; and with the counters surviving the boundary, a third
passing score right after a promotion immediately promotes again
(`[100, 100, 100]` walks `easy → medium → hard`). -/
theorem C7_change_level_preserves_counters :
    (∀ (s : TrackerState) (l : Level),
      (change_level s l).consecutive_correct = s.consecutive_correct ∧
      (change_level s l).consecutive_incorrect = s.consecutive_incorrect ∧
      (change_level s l).level_progression = s.level_progression ++ [l]) ∧
    initialTracker.level_progression = [.easy] ∧
    (∀ (s : TrackerState) (score : Int),
      ((determine_next_level s score).current_level = s.current_level ∧
        (determine_next_level s score).level_progression = s.level_progression) ∨
      ((determine_next_level s score).current_level ≠ s.current_level ∧
        (determine_next_level s score).level_progression =
          s.level_progression ++ [(determine_next_level s score).current_level])) ∧
    (run_scores [100, 100, 100]).level_progression = [.easy, .medium, .hard] ∧
    (run_scores [100, 100, 100]).current_level = .hard := by
  refine ⟨fun s l => ⟨rfl, rfl, rfl⟩, rfl, fun s score => ?_, by decide, by decide⟩
  simp only [determine_next_level, should_promote_level, should_demote_level, change_level]
  cases s.current_level <;> split_ifs <;> simp_all

theorem guard_min (x k c : Nat) : (if 0 < x then min (x * k) c else 0) = min (k * x) c := by
  rcases Nat.eq_zero_or_pos x with h | h
  · subst h; simp
  · rw [if_pos h, Nat.mul_comm]

theorem guard_mul (x k : Nat) : (if 0 < x then k * x else 0) = k * x := by
  rcases Nat.eq_zero_or_pos x with h | h
  · subst h; simp
  · rw [if_pos h]

/-- C3: the proctoring penalty equals
`min(min(2·tab, 20) + min(15·faces + min(5·faceCov, 25) + min(5·eyeCov, 25)
+ min(2·noFace, 15), 50) + min(1·alerts, 10), 70)` and always lies in
`[0, 70]`; 15 tab switches contribute exactly 20, and the record
`(faces, faceCov, eyeCov, noFace) = (1, 10, 10, 20)` has raw capped face sum
80 yet yields penalty exactly 50. -/
theorem C3_proctoring_penalty_formula (p : ProctoringStats) :
    calculate_proctoring_penalty p =
      min (min (2 * p.tab_switch_count) 20 +
        min (15 * p.multiple_faces + min (5 * p.face_coverings) 25 +
          min (5 * p.eye_coverings) 25 + min (2 * p.no_face_count) 15) 50 +
        min (1 * p.total_alerts) 10) 70 ∧
    calculate_proctoring_penalty p ≤ 70 ∧
    calculate_proctoring_penalty ⟨15, 0, 0, 0, 0, 0⟩ = 20 ∧
    calculate_proctoring_penalty ⟨0, 1, 10, 10, 20, 0⟩ = 50 ∧
    15 * 1 + min (5 * 10) 25 + min (5 * 10) 25 + min (2 * 20) 15 = 80 := by
  refine ⟨?_, ?_, by decide, by decide, by decide⟩ <;>
    simp only [calculate_proctoring_penalty, guard_min, guard_mul]
  exact Nat.min_le_right _ _

theorem round1_mono {x y : ℚ} (h : x ≤ y) : round1 x ≤ round1 y := by
  unfold round1
  have hr : round (10 * x) ≤ round (10 * y) := by
    rw [round_eq, round_eq]
    exact Int.floor_mono (by linarith)
  have hc : ((round (10 * x) : ℤ) : ℚ) ≤ ((round (10 * y) : ℤ) : ℚ) := by
    exact_mod_cast hr
  linarith

theorem round1_zero : round1 0 = 0 := by
  rw [round1, round_eq]
  norm_num

theorem round1_hundred : round1 100 = 100 := by
  rw [round1, round_eq]
  norm_num

/-- C5: `InterviewManager.calculate_final_evaluation` reports the level score
from the fixed table `{easy: 30, medium: 70, hard: 100}`, the rounded
average of the recorded technical scores (50 when none were recorded),
`base = level·0.6 + technical·0.4` rounded, and
`overall = max(0, base - proctoringPenalty)` when proctoring stats are
supplied (`overall = base` otherwise), rounded to one decimal place. -/
theorem C5_final_evaluation_im_formula (lvl : Level) (scores : List ℚ)
    (ps : Option ProctoringStats) :
    (calculate_final_evaluation_im lvl scores ps).level_score =
      (match lvl with | .easy => (30 : ℚ) | .medium => 70 | .hard => 100) ∧
    (calculate_final_evaluation_im lvl scores ps).technical_score =
      round1 (if scores = [] then 50 else scores.sum / scores.length) ∧
    (calculate_final_evaluation_im lvl scores ps).base_score =
      round1 ((match lvl with | .easy => (30 : ℚ) | .medium => 70 | .hard => 100) * (6 / 10) +
        (if scores = [] then 50 else scores.sum / scores.length) * (4 / 10)) ∧
    (calculate_final_evaluation_im lvl scores ps).overall_score =
      round1 (match ps with
        | none =>
          (match lvl with | .easy => (30 : ℚ) | .medium => 70 | .hard => 100) * (6 / 10) +
            (if scores = [] then 50 else scores.sum / scores.length) * (4 / 10)
        | some p =>
          max 0
            ((match lvl with | .easy => (30 : ℚ) | .medium => 70 | .hard => 100) * (6 / 10) +
              (if scores = [] then 50 else scores.sum / scores.length) * (4 / 10) -
              (calculate_proctoring_penalty p : ℚ))) ∧
    (calculate_final_evaluation_im lvl scores ps).proctoring_penalty =
      ps.map (fun p => round1 (calculate_proctoring_penalty p : ℚ)) := by
  rcases ps with _ | p <;> cases lvl <;>
    simp [calculate_final_evaluation_im, level_weights_im]

/-- C10: with an empty question ledger, `ScoringService.calculate_final_evaluation`
returns overall score 0 and technical average 0 with empty penalty details,
for every supplied level string and independently of any proctoring stats;
the interview-manager variant instead defaults the technical average to 50
and yields a strictly positive base score. -/
theorem C10_empty_ledger_zeroes (final_level : String) (lvl : Level)
    (ps ps2 : Option ProctoringStats) :
    calculate_final_evaluation_ss final_level [] ps =
      { overall_score := 0
        technical_avg := 0
        final_level := final_level
        total_questions := 0
        penalty_details := none } ∧
    calculate_final_evaluation_ss final_level [] ps =
      calculate_final_evaluation_ss final_level [] ps2 ∧
    (calculate_final_evaluation_im lvl [] ps).technical_score = 50 ∧
    0 < (calculate_final_evaluation_im lvl [] ps).base_score := by
  refine ⟨by simp [calculate_final_evaluation_ss], by simp [calculate_final_evaluation_ss], ?_, ?_⟩ <;>
    rcases ps with _ | p <;> cases lvl <;>
      simp [calculate_final_evaluation_im, level_weights_im, round1, round_eq] <;>
        norm_num

/-- C4: `evaluate_answer_quality` returns, tier 1, the first 1-to-3-digit
integer token of the collaborator's (stripped) response clamped to
`[0, 100]` when such a token exists; tier 2, 65 when no token is found and
the answer has more than 20 words and contains a keyword of
`because, example, method, technique, approach` (case-insensitive), else 45;
tier 3, on a raised collaborator error, 55 when the answer is longer than 50
characters else 40 — so a throwing collaborator with a 60-character answer
scores 55 and with a 10-character answer scores 40. -/
theorem C4_answer_quality_three_tiers :
    (∀ (response answer : String) (n : Nat),
      findFirstNumberAux none (stripChars response.toList) = some n →
        evaluate_answer_quality (.ok response) answer = max 0 (min 100 n)) ∧
    (∀ response answer : String,
      findFirstNumberAux none (stripChars response.toList) = none →
        evaluate_answer_quality (.ok response) answer =
          if 20 < wordCount answer ∧ containsKeyword answer = true then 65 else 45) ∧
    (∀ answer : String,
      evaluate_answer_quality .err answer = if 50 < answer.length then 55 else 40) ∧
    evaluate_answer_quality .err (String.mk (List.replicate 60 'a')) = 55 ∧
    evaluate_answer_quality .err (String.mk (List.replicate 10 'a')) = 40 := by
  refine ⟨?_, ?_, fun answer => rfl, by decide, by decide⟩
  · intro response answer n h
    simp only [evaluate_answer_quality, h]
  · intro response answer h
    simp only [evaluate_answer_quality, h]

/-- Closed instance of C4: the response `" Score: 85 "` parses to 85, which is
returned as the (clamped) technical score. -/
theorem C4_witness :
    findFirstNumberAux none (stripChars " Score: 85 ".toList) = some 85 ∧
    evaluate_answer_quality (.ok " Score: 85 ") "x" = max 0 (min 100 85) := by
  refine ⟨by decide, ?_⟩
  exact C4_answer_quality_three_tiers.1 " Score: 85 " "x" 85 (by decide)

/-- C8: on a non-empty ledger, `ScoringService.calculate_final_evaluation`
computes `base = technicalAvg·0.7 + levelWeight·100·0.3` with level weights
`{easy: 0.3, medium: 0.6, hard: 1.0}` (default 0.3 for unknown level
strings), then `overall = max(0, base - proctoringPenalty)` when proctoring
stats are given, rounded to one decimal — and this blend is observably
distinct from the interview-manager 60/40 blend (79 vs 58 on one question
scored 100 at level easy). -/
theorem C8_scoring_service_blend (s0 : ℚ) (rest : List ℚ) (final_level : String)
    (ps : Option ProctoringStats) :
    (calculate_final_evaluation_ss final_level (s0 :: rest) ps).technical_avg =
      round1 ((s0 :: rest).sum / ((s0 :: rest).length : ℚ)) ∧
    (calculate_final_evaluation_ss final_level (s0 :: rest) ps).overall_score =
      round1 (match ps with
        | none =>
          (s0 :: rest).sum / ((s0 :: rest).length : ℚ) * (7 / 10) +
            (if final_level = "easy" then (3 : ℚ) / 10
             else if final_level = "medium" then 6 / 10
             else if final_level = "hard" then 1 else 3 / 10) * 100 * (3 / 10)
        | some p =>
          max 0
            ((s0 :: rest).sum / ((s0 :: rest).length : ℚ) * (7 / 10) +
              (if final_level = "easy" then (3 : ℚ) / 10
               else if final_level = "medium" then 6 / 10
               else if final_level = "hard" then 1 else 3 / 10) * 100 * (3 / 10) -
              (calculate_proctoring_penalty p : ℚ))) ∧
    (calculate_final_evaluation_ss final_level (s0 :: rest) ps).total_questions =
      rest.length + 1 ∧
    (calculate_final_evaluation_ss "easy" [100] none).overall_score = 79 ∧
    (calculate_final_evaluation_im .easy [100] none).overall_score = 58 ∧
    (79 : ℚ) ≠ 58 := by
  refine ⟨?_, ?_, ?_, ?_, ?_, by norm_num⟩
  · rcases ps with _ | p <;> simp [calculate_final_evaluation_ss]
  · rcases ps with _ | p <;> simp [calculate_final_evaluation_ss, level_weight_ss]
  · rcases ps with _ | p <;> simp [calculate_final_evaluation_ss]
  · simp only [calculate_final_evaluation_ss, level_weight_ss, round1, round_eq]
    norm_num
  · simp only [calculate_final_evaluation_im, level_weights_im, round1, round_eq]
    norm_num

theorem round1_nonneg {x : ℚ} (h : 0 ≤ x) : 0 ≤ round1 x := by
  have h2 : round1 0 ≤ round1 x := round1_mono h
  rwa [round1_zero] at h2

theorem round1_le_hundred {x : ℚ} (h : x ≤ 100) : round1 x ≤ 100 := by
  have h2 : round1 x ≤ round1 100 := round1_mono h
  rwa [round1_hundred] at h2

/-- Every score produced by `evaluate_answer_quality` is at most 100: tier 1
clamps, the fallback constants 65, 45, 55, 40 are all below 100. -/
theorem evaluate_answer_quality_le (llm : LLMResult) (answer : String) :
    evaluate_answer_quality llm answer ≤ 100 := by
  rcases llm with response | _
  · cases h : findFirstNumberAux none (stripChars response.toList) with
    | none =>
      simp only [evaluate_answer_quality, h]
      split <;> omega
    | some n =>
      simp only [evaluate_answer_quality, h]
      exact max_le (by norm_num) (min_le_left _ _)
  · simp only [evaluate_answer_quality]
    split <;> omega

theorem scores_foldl_le (turns : List (LLMResult × String)) (s : SessionState)
    (h : ∀ x ∈ s.technical_scores, x ≤ 100) :
    ∀ x ∈ (turns.foldl (fun s t => process_answer s t.1 t.2) s).technical_scores,
      x ≤ 100 := by
  induction turns generalizing s with
  | nil => exact h
  | cons t rest ih =>
    refine ih (process_answer s t.1 t.2) ?_
    intro x hx
    simp only [process_answer, List.mem_append, List.mem_singleton] at hx
    rcases hx with hx | hx
    · exact h x hx
    · subst hx
      exact evaluate_answer_quality_le _ _

theorem list_avg_nonneg (l : List ℚ) (h : ∀ x ∈ l, 0 ≤ x) :
    0 ≤ l.sum / l.length :=
  div_nonneg (List.sum_nonneg h) (by positivity)

theorem list_avg_le_hundred (l : List ℚ) (h : ∀ x ∈ l, x ≤ 100) :
    l.sum / l.length ≤ 100 := by
  rcases eq_or_ne l [] with rfl | hne
  · simp
  · have hl : 0 < (l.length : ℚ) := by
      exact_mod_cast List.length_pos.mpr hne
    rw [div_le_iff₀ hl]
    have hs : l.sum ≤ l.length • (100 : ℚ) := List.sum_le_card_nsmul l 100 h
    rw [nsmul_eq_mul] at hs
    linarith

/-- The reported overall score of the interview-manager evaluation lies in
`[0, 100]` whenever every recorded technical score does. -/
theorem overall_im_bounds (lvl : Level) (scores : List ℚ) (ps : Option ProctoringStats)
    (h0 : ∀ x ∈ scores, 0 ≤ x) (h1 : ∀ x ∈ scores, x ≤ 100) :
    0 ≤ (calculate_final_evaluation_im lvl scores ps).overall_score ∧
    (calculate_final_evaluation_im lvl scores ps).overall_score ≤ 100 := by
  have havg0 : 0 ≤ (if scores = [] then (50 : ℚ) else scores.sum / scores.length) := by
    split
    · norm_num
    · exact list_avg_nonneg scores h0
  have havg1 : (if scores = [] then (50 : ℚ) else scores.sum / scores.length) ≤ 100 := by
    split
    · norm_num
    · exact list_avg_le_hundred scores h1
  have hls0 : (0 : ℚ) ≤ level_weights_im lvl := by
    cases lvl <;> norm_num [level_weights_im]
  have hls1 : level_weights_im lvl ≤ 100 := by
    cases lvl <;> norm_num [level_weights_im]
  rcases ps with _ | p
  · simp only [calculate_final_evaluation_im]
    exact ⟨round1_nonneg (by nlinarith), round1_le_hundred (by nlinarith)⟩
  · simp only [calculate_final_evaluation_im]
    have hpen : (0 : ℚ) ≤ (calculate_proctoring_penalty p : ℚ) := by positivity
    exact ⟨round1_nonneg (le_max_left _ _),
      round1_le_hundred (max_le (by norm_num) (by nlinarith))⟩

theorem mapped_scores_nonneg (l : List Nat) :
    ∀ x ∈ l.map (fun n : Nat => (n : ℚ)), 0 ≤ x := by
  intro x hx
  obtain ⟨n, hn, rfl⟩ := List.mem_map.mp hx
  positivity

theorem mapped_scores_le (l : List Nat) (h : ∀ n ∈ l, n ≤ 100) :
    ∀ x ∈ l.map (fun n : Nat => (n : ℚ)), x ≤ 100 := by
  intro x hx
  obtain ⟨n, hn, rfl⟩ := List.mem_map.mp hx
  exact_mod_cast h n hn

/-- C6: for every reachable session (any sequence of collaborator outcomes
and answers processed from the fresh session) and any optional proctoring
stats, every recorded technical score is at most 100 and the reported
overall score lies in `[0, 100]`. -/
theorem C6_overall_score_in_range (turns : List (LLMResult × String))
    (ps : Option ProctoringStats) :
    ((run_session turns).technical_scores.all fun x => decide (x ≤ 100)) = true ∧
    0 ≤ (calculate_final_evaluation_im (run_session turns).tracker.current_level
      ((run_session turns).technical_scores.map fun n : Nat => (n : ℚ)) ps).overall_score ∧
    (calculate_final_evaluation_im (run_session turns).tracker.current_level
      ((run_session turns).technical_scores.map fun n : Nat => (n : ℚ)) ps).overall_score ≤ 100 := by
  have hb : ∀ x ∈ (run_session turns).technical_scores, x ≤ 100 :=
    scores_foldl_le turns initialSession (by simp [initialSession])
  refine ⟨by simpa [List.all_eq_true] using hb, ?_, ?_⟩
  · exact (overall_im_bounds _ _ ps (mapped_scores_nonneg _)
      (mapped_scores_le _ hb)).1
  · exact (overall_im_bounds _ _ ps (mapped_scores_nonneg _)
      (mapped_scores_le _ hb)).2

theorem generate_text_go_isSome (attempts : Nat → AttemptOutcome) :
    ∀ (gap max_retries attempt : Nat), max_retries ≤ attempt + gap →
      attempt < max_retries →
      (generate_text_go attempts max_retries attempt).isSome = true := by
  intro gap
  induction gap with
  | zero =>
    intro mr k h1 h2
    omega
  | succ g ih =>
    intro mr k h1 h2
    unfold generate_text_go
    rw [dif_pos h2]
    cases hA : attempts k with
    | response t =>
      cases t with
      | none => rfl
      | some s =>
        change (if s ≠ "" then some s.trim else some fallbackReply).isSome = true
        split <;> rfl
    | raised =>
      change (if k < mr - 1 then generate_text_go attempts mr (k + 1)
        else some fallbackReply).isSome = true
      split
      · exact ih mr (k + 1) (by omega) (by omega)
      · rfl

theorem generate_text_go_congr (a b : Nat → AttemptOutcome) :
    ∀ (gap max_retries attempt : Nat), max_retries ≤ attempt + gap →
      (∀ i, i < max_retries → a i = b i) →
      generate_text_go a max_retries attempt = generate_text_go b max_retries attempt := by
  intro gap
  induction gap with
  | zero =>
    intro mr k h1 h2
    unfold generate_text_go
    have hk : ¬k < mr := by omega
    rw [dif_neg hk, dif_neg hk]
  | succ g ih =>
    intro mr k h1 h2
    by_cases hk : k < mr
    · unfold generate_text_go
      rw [dif_pos hk, dif_pos hk, ← h2 k hk]
      cases hA : a k with
      | response t => cases t <;> rfl
      | raised =>
        change (if k < mr - 1 then generate_text_go a mr (k + 1) else some fallbackReply) =
          (if k < mr - 1 then generate_text_go b mr (k + 1) else some fallbackReply)
        split
        · exact ih mr (k + 1) (by omega) h2
        · rfl
    · unfold generate_text_go
      rw [dif_neg hk, dif_neg hk]

/-- C9: with the default 3 retries, `LLMRunner.generate_text` always returns
some string; its result depends only on the first 3 attempt outcomes (so at
most 3 attempts are consulted); if every attempt raises, or the response
text is missing or empty, it returns the fixed fallback string; and the
fallback question generator always hands the caller a question from the
fixed per-level template pool. -/
theorem C9_generate_text_never_fails (attempts : Nat → AttemptOutcome)
    (job_role : String) (current_level : Level) (choice : Nat) :
    (generate_text attempts 3).isSome = true ∧
    generate_text attempts 3 =
      generate_text (fun i => if i < 3 then attempts i else AttemptOutcome.raised) 3 ∧
    generate_text (fun _ => AttemptOutcome.raised) 3 = some fallbackReply ∧
    generate_text (fun _ => AttemptOutcome.response none) 3 = some fallbackReply ∧
    generate_text (fun _ => AttemptOutcome.response (some "")) 3 = some fallbackReply ∧
    generate_fallback_question job_role current_level choice ∈
      fallback_questions job_role current_level := by
  refine ⟨?_, ?_, ?_, ?_, ?_, ?_⟩
  · exact generate_text_go_isSome attempts 3 3 0 (by omega) (by omega)
  · exact generate_text_go_congr attempts _ 3 3 0 (by omega) fun i hi => (if_pos hi).symm
  · simp [generate_text, generate_text_go]
  · simp [generate_text, generate_text_go]
  · simp [generate_text, generate_text_go]
  · have h3 : choice % 3 = 0 ∨ choice % 3 = 1 ∨ choice % 3 = 2 := by omega
    cases current_level <;> rcases h3 with h | h | h <;>
      simp [generate_fallback_question, fallback_questions, h]

/-- Closed instance of C1: at `easy` with one correct already banked, a score
of 100 promotes to `medium` and the correct streak reaches 2. -/
theorem C1_witness :
    (determine_next_level ⟨.easy, 0, 1, 0, [.easy]⟩ 100).current_level = .medium ∧
    (determine_next_level ⟨.easy, 0, 1, 0, [.easy]⟩ 100).consecutive_correct = 2 := by
  have h := C1_determine_next_level_transition ⟨.easy, 0, 1, 0, [.easy]⟩ 100
  refine ⟨?_, ?_⟩
  · have h3 := h.2.2.1
    norm_num [promoteStep] at h3
    exact h3
  · have h1 := h.1
    norm_num at h1
    exact h1

/-- Closed instance of C2 at the score sequence `[70, 30]`. -/
theorem C2_witness :
    min (run_scores [70, 30]).consecutive_correct
      (run_scores [70, 30]).consecutive_incorrect = 0 :=
  C2_counters_mutually_exclusive [70, 30]

/-- Closed instance of C3: the penalty never exceeds 70 even with 100 of
every violation. -/
theorem C3_witness :
    calculate_proctoring_penalty ⟨100, 100, 100, 100, 100, 100⟩ ≤ 70 :=
  (C3_proctoring_penalty_formula ⟨100, 100, 100, 100, 100, 100⟩).2.1

/-- Closed instance of C5: level score at `easy` is 30. -/
theorem C5_witness :
    (calculate_final_evaluation_im .easy [] none).level_score = 30 :=
  (C5_final_evaluation_im_formula .easy [] none).1

/-- Closed instance of C6 on a one-turn session with a raised collaborator. -/
theorem C6_witness :
    0 ≤ (calculate_final_evaluation_im
      (run_session [(LLMResult.err, "hi")]).tracker.current_level
      ((run_session [(LLMResult.err, "hi")]).technical_scores.map
        fun n : Nat => (n : ℚ)) none).overall_score :=
  (C6_overall_score_in_range [(LLMResult.err, "hi")] none).2.1

/-- Closed instance of C7: a level change leaves the correct streak intact. -/
theorem C7_witness :
    (change_level ⟨.easy, 3, 2, 0, [.easy]⟩ .medium).consecutive_correct = 2 ∧
    (change_level ⟨.easy, 3, 2, 0, [.easy]⟩ .medium).level_progression =
      [.easy, .medium] :=
  ⟨(C7_change_level_preserves_counters.1 ⟨.easy, 3, 2, 0, [.easy]⟩ .medium).1,
    (C7_change_level_preserves_counters.1 ⟨.easy, 3, 2, 0, [.easy]⟩ .medium).2.2⟩

/-- Closed instance of C8: one ledger entry means one reported question. -/
theorem C8_witness :
    (calculate_final_evaluation_ss "easy" [100] none).total_questions = 1 :=
  (C8_scoring_service_blend 100 [] "easy" none).2.2.1

/-- Closed instance of C9: a collaborator that always raises still yields the
fallback string. -/
theorem C9_witness :
    generate_text (fun _ => AttemptOutcome.raised) 3 = some fallbackReply :=
  (C9_generate_text_never_fails (fun _ => AttemptOutcome.raised) "role" .easy 0).2.2.1

/-- Closed instance of C10: with an empty ledger the interview-manager
variant still reports a technical average of 50. -/
theorem C10_witness :
    (calculate_final_evaluation_im .easy [] none).technical_score = 50 :=
  (C10_empty_ledger_zeroes "easy" .easy none none).2.2.1

end Interview
